import Mathlib

/-!
# pichid: feature-report dispatch of the PIC18 USB HID firmware (`main.c`)

A shallow embedding of the callbacks of `main.c` that the USB stack invokes
(`SetupFeatureReport`, `SetFeatureReport`, `GetFeatureReport`, and their
input/output-report siblings) and of the housekeeping routine
`ApplicationTasks`, followed by theorems about them.

Modelling conventions.

* An `unsigned char` (`byte`) is a `Fin 256`; arithmetic is done on `Nat`/`Int`
  after `.val`, and every narrowing store is an explicit `% 256`.
* A register bit (`PORTEbits.RE3`, `UCONbits.SUSPND`, `RCONbits.IPEN`, ...) is a
  `Bool`.
* `HIDFeatureBuffer` is the memory starting at the array: a function from the
  index to the byte stored there.  `GetFeatureReport` stores at indices 0 to 6,
  which lie inside the array when `HID_FEATURE_REPORT_BYTES` is at least 7.
* `char` is the signed 8-bit type, as in the compiler the firmware was written
  for; `int` arithmetic on byte operands cannot overflow and is done in `Int`.
* The globals of the firmware are the fields of `State`; a C function is a
  function from the state before the call to the state after it.
* The motor, servo and solenoid routines are declared in `motor.h`, `servo.h`
  and `solenoid.h`; `main.c` only calls them.  They are a parameter
  (`Drivers D`) acting on a driver state `D` of their own, and every call is
  recorded, in order, in `State.calls`.
* The constants of `usb.h` (`HID_FEATURE_REPORT_BYTES`, `HID_INPUT_REPORT_BYTES`,
  `CONFIGURED`) are a parameter (`Config`).
-/

namespace Pichid

/-! ## Machine integers -/

/-- The C type `byte` (`unsigned char`): a value in `0..255`. -/
abbrev byte := Fin 256

/-- Narrowing conversion of an integer to `unsigned char`: reduction modulo 256. -/
def toByte (x : Int) : byte :=
  ⟨(x % 256).toNat, by omega⟩

/-- The cast `(char)x` of an integer, `char` being the signed 8-bit type of the
compiler the firmware targets: two's-complement wrap into `-128..127`. -/
def toChar (x : Int) : Int :=
  (x + 128) % 256 - 128

/-- The bitwise `a | b` of two bytes, stored back into a byte. -/
def byteOr (a b : byte) : byte :=
  ⟨(a.val ||| b.val) % 256, Nat.mod_lt _ (by decide)⟩

/-- The value of a one-bit register field read as an integer (`0` or `1`). -/
def bitVal (b : Bool) : byte :=
  if b then 1 else 0

/-- Writing bit 4 of a port register (`PORTAbits.RA4 = v`): a one-bit field
keeps the lowest bit of the assigned value; the other seven bits of the port are
not touched. -/
def writeBit4 (port : byte) (v : Nat) : byte :=
  ⟨(port.val - (port.val / 16 % 2) * 16 + (v % 2) * 16) % 256, Nat.mod_lt _ (by decide)⟩

/-! ## Data model -/

/-- What the pointers `inPtr` and `outPtr` of the USB stack may refer to. -/
inductive Ptr where
  | HIDFeatureBuffer
  | HIDRxBuffer
  | HIDTxBuffer
  | other (address : Nat)
  deriving DecidableEq

/-- One observable actuator or driver operation performed by `main.c`, with the
argument passed. -/
inductive Call where
  | setRA4 (bit : Nat)
  | motorSetSpeed (speed : Int)
  | setServo1 (position : byte)
  | actuateSolenoid
  | clearSolenoid
  | checkSolenoidVoltage
  | getSolenoidVoltage
  | motorGetSpeed
  | getServo1
  deriving DecidableEq

/-- Constants that `main.c` takes from `usb.h`. -/
structure Config where
  HID_FEATURE_REPORT_BYTES : Nat
  HID_INPUT_REPORT_BYTES : Nat
  CONFIGURED : Nat

/-- The driver routines `main.c` calls, over a driver state `D` that holds
whatever the motor, servo and solenoid modules own.  A routine returning a value
returns it together with the driver state it leaves. -/
structure Drivers (D : Type) where
  motorSetSpeed : Int → D → D
  motorGetSpeed : D → Int × D
  setServo1 : byte → D → D
  getServo1 : D → byte × D
  actuateSolenoid : D → D
  clearSolenoid : D → D
  getSolenoidVoltage : D → byte × D
  checkSolenoidVoltage : D → D

/-- The globals and registers `main.c` reads or writes, the state of the drivers,
and the record of the calls made so far (oldest first). -/
structure State (D : Type) where
  HIDFeatureBuffer : Nat → byte
  PORTA : byte
  PORTB : byte
  PORTC : byte
  RE3 : Bool
  SUSPND : Bool
  IPEN : Bool
  GIEL : Bool
  GIEH : Bool
  selfPowered : byte
  remoteWakeup : byte
  deviceState : byte
  inPtr : Ptr
  outPtr : Ptr
  wCount : Nat
  drivers : D
  calls : List Call

variable {D : Type}

/-! ## Statements of `main.c` -/

/-- The assignment `HIDFeatureBuffer[i] = v`. -/
def storeBuffer (i : Nat) (v : byte) (s : State D) : State D :=
  { s with HIDFeatureBuffer := Function.update s.HIDFeatureBuffer i v }

/-- The assignment `PORTAbits.RA4 = v`, which drives the LED. -/
def setRA4 (v : Nat) (s : State D) : State D :=
  { s with PORTA := writeBit4 s.PORTA v, calls := s.calls ++ [Call.setRA4 (v % 2)] }

/-- The call `motorSetSpeed(speed)`. -/
def callMotorSetSpeed (drv : Drivers D) (speed : Int) (s : State D) : State D :=
  { s with drivers := drv.motorSetSpeed speed s.drivers,
           calls := s.calls ++ [Call.motorSetSpeed speed] }

/-- The call `setServo1(position)`. -/
def callSetServo1 (drv : Drivers D) (position : byte) (s : State D) : State D :=
  { s with drivers := drv.setServo1 position s.drivers,
           calls := s.calls ++ [Call.setServo1 position] }

/-- The call `actuateSolenoid()`. -/
def callActuateSolenoid (drv : Drivers D) (s : State D) : State D :=
  { s with drivers := drv.actuateSolenoid s.drivers,
           calls := s.calls ++ [Call.actuateSolenoid] }

/-- The call `clearSolenoid()`. -/
def callClearSolenoid (drv : Drivers D) (s : State D) : State D :=
  { s with drivers := drv.clearSolenoid s.drivers,
           calls := s.calls ++ [Call.clearSolenoid] }

/-- The call `checkSolenoidVoltage()`. -/
def callCheckSolenoidVoltage (drv : Drivers D) (s : State D) : State D :=
  { s with drivers := drv.checkSolenoidVoltage s.drivers,
           calls := s.calls ++ [Call.checkSolenoidVoltage] }

/-- The call `getSolenoidVoltage()`: the value returned and the state after. -/
def callGetSolenoidVoltage (drv : Drivers D) (s : State D) : byte × State D :=
  ((drv.getSolenoidVoltage s.drivers).1,
   { s with drivers := (drv.getSolenoidVoltage s.drivers).2,
            calls := s.calls ++ [Call.getSolenoidVoltage] })

/-- The call `motorGetSpeed()`: the value returned and the state after. -/
def callMotorGetSpeed (drv : Drivers D) (s : State D) : Int × State D :=
  ((drv.motorGetSpeed s.drivers).1,
   { s with drivers := (drv.motorGetSpeed s.drivers).2,
            calls := s.calls ++ [Call.motorGetSpeed] })

/-- The call `getServo1()`: the value returned and the state after. -/
def callGetServo1 (drv : Drivers D) (s : State D) : byte × State D :=
  ((drv.getServo1 s.drivers).1,
   { s with drivers := (drv.getServo1 s.drivers).2,
            calls := s.calls ++ [Call.getServo1] })

/-! ## The functions of `main.c` -/

/-- Embedding of `ApplicationTasks`: refresh `selfPowered` from RE3, check the
solenoid voltage, return if the device is not configured or the bus is
suspended, otherwise enable the interrupts. -/
def ApplicationTasks (cfg : Config) (drv : Drivers D) (s : State D) : State D :=
  let s1 := { s with selfPowered := bitVal s.RE3 }
  let s2 := callCheckSolenoidVoltage drv s1
  if s2.deviceState.val < cfg.CONFIGURED ∨ s2.SUSPND = true then
    s2
  else
    { s2 with IPEN := true, GIEL := true, GIEH := true }

/-- Embedding of `SetupFeatureReport`. -/
def SetupFeatureReport (reportID : byte) (s : State D) : State D :=
  if reportID = 0 then
    { s with inPtr := Ptr.HIDFeatureBuffer }
  else
    s

/-- Embedding of `SetFeatureReport`: for report 0, read the solenoid flag, drive
the LED, the motor and the servo from bytes 0, 1 and 2, then fire or clear the
solenoid. -/
def SetFeatureReport (drv : Drivers D) (reportID : byte) (s : State D) : State D :=
  if reportID = 0 then
    let solenoidFlag := s.HIDFeatureBuffer 3
    let s1 := setRA4 ((s.HIDFeatureBuffer 0).val &&& 0x01) s
    let s2 := callMotorSetSpeed drv (toChar (((s1.HIDFeatureBuffer 1).val : Int) - 128)) s1
    let s3 := callSetServo1 drv (s2.HIDFeatureBuffer 2) s2
    if solenoidFlag.val &&& 0x01 ≠ 0 then
      callActuateSolenoid drv s3
    else
      callClearSolenoid drv s3
  else
    s

/-- Embedding of `GetFeatureReport`: for report 0, point `outPtr` at the feature
buffer, fill bytes 0 to 6 and set `wCount`. -/
def GetFeatureReport (cfg : Config) (drv : Drivers D) (reportID : byte) (s : State D) :
    State D :=
  if reportID = 0 then
    let s1 := { s with outPtr := Ptr.HIDFeatureBuffer }
    let s2 := storeBuffer 0 s1.PORTA s1
    let s3 := storeBuffer 1 s2.PORTB s2
    let s4 := storeBuffer 2 s3.PORTC s3
    let r5 := callGetSolenoidVoltage drv s4
    let s5 := storeBuffer 3 r5.1 r5.2
    let r6 := callMotorGetSpeed drv s5
    let s6 := storeBuffer 4 (toByte r6.1) r6.2
    let r7 := callGetServo1 drv s6
    let s7 := storeBuffer 5 r7.1 r7.2
    let s8 := storeBuffer 6 0 s7
    let s9 := if s8.selfPowered ≠ 0 then storeBuffer 6 (byteOr (s8.HIDFeatureBuffer 6) 0x01) s8
              else s8
    let s10 := if s9.remoteWakeup ≠ 0 then storeBuffer 6 (byteOr (s9.HIDFeatureBuffer 6) 0x02) s9
               else s9
    { s10 with wCount := cfg.HID_FEATURE_REPORT_BYTES }
  else
    s

/-- Embedding of `SetupOutputReport`. -/
def SetupOutputReport (reportID : byte) (s : State D) : State D :=
  if reportID = 0 then
    { s with inPtr := Ptr.HIDRxBuffer }
  else
    s

/-- Embedding of `SetOutputReport`: nothing is done for any report. -/
def SetOutputReport (reportID : byte) (s : State D) : State D :=
  if reportID ≠ 0 then
    s
  else
    s

/-- Embedding of `GetInputReport`. -/
def GetInputReport (cfg : Config) (reportID : byte) (s : State D) : State D :=
  if reportID = 0 then
    { s with outPtr := Ptr.HIDTxBuffer, wCount := cfg.HID_INPUT_REPORT_BYTES }
  else
    s

/-! ## Observing the calls a function makes -/

/-- The calls made between the state `before` and the later state `after`. -/
def issued (before after : State D) : List Call :=
  after.calls.drop before.calls.length

/-- The speeds passed to `motorSetSpeed` in a list of calls, in order. -/
def motorCommands : List Call → List Int
  | [] => []
  | Call.motorSetSpeed v :: rest => v :: motorCommands rest
  | _ :: rest => motorCommands rest

/-- The two states the solenoid power path can be commanded into. -/
inductive SolenoidCommand where
  | fire
  | clear
  deriving DecidableEq

/-- Modelled from the spec: the state of the motor, servo and solenoid drivers
(`motor.c`, `servo.c` and `solenoid.c` are not among the sources).  Each actuator
keeps its last commanded value; the solenoid also has the reading of the
boost-voltage sensor. -/
structure DriverState where
  motorSpeed : Int
  servoPosition : byte
  solenoid : SolenoidCommand
  voltage : byte
  deriving DecidableEq

/-- Modelled from the spec: the driver routines of `motor.c`, `servo.c` and
`solenoid.c`, whose code is not among the sources.  A setter records the value, a
getter returns the last commanded value, `fire` begins an actuation, `clear`
forces the power off, `readVoltage` returns the sensor value, and the periodic
safety check clears the solenoid power path when the sensor value is above the
safety threshold. -/
def specDrivers (threshold : byte) : Drivers DriverState where
  motorSetSpeed := fun v d => { d with motorSpeed := v }
  motorGetSpeed := fun d => (d.motorSpeed, d)
  setServo1 := fun p d => { d with servoPosition := p }
  getServo1 := fun d => (d.servoPosition, d)
  actuateSolenoid := fun d => { d with solenoid := SolenoidCommand.fire }
  clearSolenoid := fun d => { d with solenoid := SolenoidCommand.clear }
  getSolenoidVoltage := fun d => (d.voltage, d)
  checkSolenoidVoltage := fun d =>
    if threshold < d.voltage then { d with solenoid := SolenoidCommand.clear } else d

/-! ## Concrete inputs used to evaluate the functions -/

/-- Sample values for the constants of `usb.h`. -/
def sampleConfig : Config where
  HID_FEATURE_REPORT_BYTES := 8
  HID_INPUT_REPORT_BYTES := 8
  CONFIGURED := 5

/-- The inbound report LED on, speed +10, servo 42, solenoid fire. -/
def sampleReport : Nat → byte
  | 0 => 1
  | 1 => 138
  | 2 => 42
  | 3 => 1
  | _ => 0

/-- A report with the same LED bit, speed, servo position and solenoid bit as
`sampleReport` and different bits everywhere else. -/
def sampleReportNoise : Nat → byte
  | 0 => 0xF1
  | 1 => 138
  | 2 => 42
  | 3 => 0x81
  | _ => 0x5A

/-- A state after the host has written `sampleReport`: device addressed but not
configured, drivers idle, sensor reading 200, `wCount` left at 8 by an earlier
transfer. -/
def sampleState : State DriverState where
  HIDFeatureBuffer := sampleReport
  PORTA := 0
  PORTB := 0x3C
  PORTC := 0x81
  RE3 := true
  SUSPND := false
  IPEN := false
  GIEL := false
  GIEH := false
  selfPowered := 0
  remoteWakeup := 1
  deviceState := 4
  inPtr := Ptr.other 0
  outPtr := Ptr.other 0
  wCount := 8
  drivers := { motorSpeed := 0, servoPosition := 0, solenoid := SolenoidCommand.clear,
               voltage := 200 }
  calls := []

/-- The state `sampleState` with `sampleReportNoise` in the feature buffer. -/
def sampleStateNoise : State DriverState :=
  { sampleState with HIDFeatureBuffer := sampleReportNoise }

/-- The state `sampleState` once the device is configured. -/
def sampleStateConfigured : State DriverState :=
  { sampleState with deviceState := 5 }

/-- The state `sampleState` with the RE3 pin low while `selfPowered` still holds 1
from an earlier tick, and the bus suspended. -/
def sampleStateBusPowered : State DriverState :=
  { sampleState with RE3 := false, selfPowered := 1, deviceState := 5, SUSPND := true }

/-! ## Auxiliary facts -/

theorem toChar_sub_128 (b : byte) : toChar ((b.val : Int) - 128) = (b.val : Int) - 128 := by
  have h := b.isLt
  unfold toChar
  omega

theorem issued_append (s s' : State D) (l : List Call) (h : s'.calls = s.calls ++ l) :
    issued s s' = l := by
  simp [issued, h]

/-- The driver state `ApplicationTasks` leaves: one voltage check was applied. -/
theorem ApplicationTasks_drivers (cfg : Config) (drv : Drivers D) (s : State D) :
    (ApplicationTasks cfg drv s).drivers = drv.checkSolenoidVoltage s.drivers := by
  simp only [ApplicationTasks, callCheckSolenoidVoltage]
  split_ifs <;> rfl

/-- The calls `SetFeatureReport(0)` adds to the record. -/
theorem SetFeatureReport_zero_calls (drv : Drivers D) (s : State D) :
    (SetFeatureReport drv 0 s).calls =
      s.calls ++ [Call.setRA4 ((s.HIDFeatureBuffer 0).val % 2),
                  Call.motorSetSpeed (((s.HIDFeatureBuffer 1).val : Int) - 128),
                  Call.setServo1 (s.HIDFeatureBuffer 2),
                  if (s.HIDFeatureBuffer 3).val % 2 = 1 then Call.actuateSolenoid
                  else Call.clearSolenoid] := by
  have h3 : (s.HIDFeatureBuffer 3).val % 2 = 0 ∨ (s.HIDFeatureBuffer 3).val % 2 = 1 := by omega
  rcases h3 with h3 | h3 <;>
    simp [SetFeatureReport, setRA4, callMotorSetSpeed, callSetServo1, callActuateSolenoid,
      callClearSolenoid, toChar_sub_128, Nat.and_one_is_mod, h3]

/-- The driver state `SetFeatureReport(0)` leaves. -/
theorem SetFeatureReport_zero_drivers (drv : Drivers D) (s : State D) :
    (SetFeatureReport drv 0 s).drivers =
      (if (s.HIDFeatureBuffer 3).val % 2 = 1 then drv.actuateSolenoid else drv.clearSolenoid)
        (drv.setServo1 (s.HIDFeatureBuffer 2)
          (drv.motorSetSpeed (((s.HIDFeatureBuffer 1).val : Int) - 128) s.drivers)) := by
  have h3 : (s.HIDFeatureBuffer 3).val % 2 = 0 ∨ (s.HIDFeatureBuffer 3).val % 2 = 1 := by omega
  rcases h3 with h3 | h3 <;>
    simp [SetFeatureReport, setRA4, callMotorSetSpeed, callSetServo1, callActuateSolenoid,
      callClearSolenoid, toChar_sub_128, Nat.and_one_is_mod, h3]

/-- The feature buffer is not written by `SetFeatureReport`. -/
theorem SetFeatureReport_buffer (drv : Drivers D) (r : byte) (s : State D) :
    (SetFeatureReport drv r s).HIDFeatureBuffer = s.HIDFeatureBuffer := by
  unfold SetFeatureReport
  split
  · simp only [setRA4, callMotorSetSpeed, callSetServo1, callActuateSolenoid, callClearSolenoid]
    split <;> rfl
  · rfl

/-! ## Decoding an inbound report -/

/-- C1: for every inbound buffer, `SetFeatureReport(0)` calls `motorSetSpeed` exactly
once, with the signed value `B[1] - 128`, which lies in `-128..127`; a buffer
that has the same byte 1 gives the same motor command whatever its other bytes
are. -/
theorem SetFeatureReport_motor_speed (drv : Drivers D) (s : State D) :
    motorCommands (issued s (SetFeatureReport drv 0 s)) = [((s.HIDFeatureBuffer 1).val : Int) - 128]
    ∧ -128 ≤ ((s.HIDFeatureBuffer 1).val : Int) - 128
    ∧ ((s.HIDFeatureBuffer 1).val : Int) - 128 ≤ 127
    ∧ ∀ t : State D, t.HIDFeatureBuffer 1 = s.HIDFeatureBuffer 1 →
        motorCommands (issued t (SetFeatureReport drv 0 t)) =
          motorCommands (issued s (SetFeatureReport drv 0 s)) := by
  have key : ∀ u : State D, motorCommands (issued u (SetFeatureReport drv 0 u)) =
      [((u.HIDFeatureBuffer 1).val : Int) - 128] := by
    intro u
    rw [issued_append u _ _ (SetFeatureReport_zero_calls drv u)]
    split_ifs <;> rfl
  have h := (s.HIDFeatureBuffer 1).isLt
  refine ⟨key s, by omega, by omega, ?_⟩
  intro t ht
  rw [key t, key s, ht]

/-- The motor command, evaluated: the reports `sampleReport` and `sampleReportNoise` have byte 1 equal to
138 and both command the motor with speed 10. -/
theorem SetFeatureReport_motor_speed_witness :
    sampleStateNoise.HIDFeatureBuffer 1 = sampleState.HIDFeatureBuffer 1
    ∧ motorCommands (issued sampleState (SetFeatureReport (specDrivers 220) 0 sampleState)) = [10]
    ∧ motorCommands (issued sampleStateNoise
        (SetFeatureReport (specDrivers 220) 0 sampleStateNoise)) = [10] := by
  have h := SetFeatureReport_motor_speed (specDrivers 220) sampleState
  have e : sampleStateNoise.HIDFeatureBuffer 1 = sampleState.HIDFeatureBuffer 1 := by decide
  refine ⟨e, ?_, ?_⟩
  · rw [h.1]; decide
  · rw [h.2.2.2 sampleStateNoise e, h.1]; decide

/-- C6: for every inbound buffer, `SetFeatureReport(0)` makes exactly four calls, in the
order LED, motor, servo, solenoid: RA4 is written with bit 0 of `B[0]`, the motor
is commanded once, the servo is set to `B[2]` unchanged, and the solenoid is
actuated if bit 0 of `B[3]` is 1 and cleared if it is 0; two buffers that agree
on bit 0 of `B[0]`, on `B[1]`, on `B[2]` and on bit 0 of `B[3]` give the same
sequence of calls. -/
theorem SetFeatureReport_command_order (drv : Drivers D) (s : State D) :
    issued s (SetFeatureReport drv 0 s) =
      [Call.setRA4 ((s.HIDFeatureBuffer 0).val % 2),
       Call.motorSetSpeed (((s.HIDFeatureBuffer 1).val : Int) - 128),
       Call.setServo1 (s.HIDFeatureBuffer 2),
       if (s.HIDFeatureBuffer 3).val % 2 = 1 then Call.actuateSolenoid else Call.clearSolenoid]
    ∧ (SetFeatureReport drv 0 s).PORTA.val / 16 % 2 = (s.HIDFeatureBuffer 0).val % 2
    ∧ ∀ t : State D,
        (t.HIDFeatureBuffer 0).val % 2 = (s.HIDFeatureBuffer 0).val % 2 →
        t.HIDFeatureBuffer 1 = s.HIDFeatureBuffer 1 →
        t.HIDFeatureBuffer 2 = s.HIDFeatureBuffer 2 →
        (t.HIDFeatureBuffer 3).val % 2 = (s.HIDFeatureBuffer 3).val % 2 →
        issued t (SetFeatureReport drv 0 t) = issued s (SetFeatureReport drv 0 s) := by
  have key : ∀ u : State D, issued u (SetFeatureReport drv 0 u) =
      [Call.setRA4 ((u.HIDFeatureBuffer 0).val % 2),
       Call.motorSetSpeed (((u.HIDFeatureBuffer 1).val : Int) - 128),
       Call.setServo1 (u.HIDFeatureBuffer 2),
       if (u.HIDFeatureBuffer 3).val % 2 = 1 then Call.actuateSolenoid
       else Call.clearSolenoid] :=
    fun u => issued_append u _ _ (SetFeatureReport_zero_calls drv u)
  refine ⟨key s, ?_, ?_⟩
  · have hp := s.PORTA.isLt
    have h3 : (s.HIDFeatureBuffer 3).val % 2 = 0 ∨ (s.HIDFeatureBuffer 3).val % 2 = 1 := by omega
    rcases h3 with h3 | h3 <;>
      simp [SetFeatureReport, setRA4, callMotorSetSpeed, callSetServo1, callActuateSolenoid,
        callClearSolenoid, Nat.and_one_is_mod, h3, writeBit4] <;> omega
  · intro t h0 h1 h2 h3
    rw [key t, key s, h0, h1, h2, h3]

/-- The sequence of calls, evaluated: `sampleReport` and `sampleReportNoise` agree on
the four decoded fields and both give LED on, speed 10, servo 42, solenoid
actuated. -/
theorem SetFeatureReport_command_order_witness :
    issued sampleStateNoise (SetFeatureReport (specDrivers 220) 0 sampleStateNoise) =
      [Call.setRA4 1, Call.motorSetSpeed 10, Call.setServo1 42, Call.actuateSolenoid]
    ∧ issued sampleState (SetFeatureReport (specDrivers 220) 0 sampleState) =
      [Call.setRA4 1, Call.motorSetSpeed 10, Call.setServo1 42, Call.actuateSolenoid] := by
  have h := SetFeatureReport_command_order (specDrivers 220) sampleState
  have e : issued sampleState (SetFeatureReport (specDrivers 220) 0 sampleState) =
      [Call.setRA4 1, Call.motorSetSpeed 10, Call.setServo1 42, Call.actuateSolenoid] := by
    rw [h.1]; decide
  refine ⟨?_, e⟩
  rw [h.2.2 sampleStateNoise (by decide) (by decide) (by decide) (by decide)]
  exact e

/-- C7: a report identity other than 0 is ignored on the inbound path:
`SetupFeatureReport` returns the state it was given (input pointer included) and
`SetFeatureReport` returns the state it was given, so it makes no call and writes
no register; `SetupFeatureReport(0)` points the input pointer at
`HIDFeatureBuffer` and changes nothing else. -/
theorem unknown_report_ignored (drv : Drivers D) (reportID : byte) (s : State D)
    (h : reportID ≠ 0) :
    SetupFeatureReport reportID s = s
    ∧ SetFeatureReport drv reportID s = s
    ∧ issued s (SetFeatureReport drv reportID s) = []
    ∧ (SetupFeatureReport 0 s).inPtr = Ptr.HIDFeatureBuffer
    ∧ SetupFeatureReport 0 s = { s with inPtr := Ptr.HIDFeatureBuffer } := by
  refine ⟨?_, ?_, ?_, ?_, ?_⟩
  · simp [SetupFeatureReport, h]
  · simp [SetFeatureReport, h]
  · simp [SetFeatureReport, h, issued]
  · simp [SetupFeatureReport]
  · simp [SetupFeatureReport]

/-- Report identity 7, evaluated: neither inbound callback changes `sampleState`. -/
theorem unknown_report_ignored_witness :
    (7 : byte) ≠ 0
    ∧ (SetupFeatureReport 7 sampleState).inPtr = Ptr.other 0
    ∧ (SetFeatureReport (specDrivers 220) 7 sampleState).calls = []
    ∧ (SetFeatureReport (specDrivers 220) 7 sampleState).drivers = sampleState.drivers
    ∧ (SetupFeatureReport 0 sampleState).inPtr = Ptr.HIDFeatureBuffer := by
  have h := unknown_report_ignored (specDrivers 220) 7 sampleState (by decide)
  refine ⟨by decide, ?_, ?_, ?_, h.2.2.2.1⟩
  · rw [h.1]; rfl
  · rw [h.2.1]; rfl
  · rw [h.2.1]

/-! ## Encoding the outbound report -/

/-- C2, as the code behaves: for a report identity other than 0, `GetFeatureReport`
returns the state it was given, so `wCount` keeps the value it had before the
call (and is 0 afterwards exactly when it was 0 before). -/
theorem GetFeatureReport_unknown_keeps_wCount (cfg : Config) (drv : Drivers D)
    (reportID : byte) (s : State D) (h : reportID ≠ 0) :
    GetFeatureReport cfg drv reportID s = s
    ∧ (GetFeatureReport cfg drv reportID s).wCount = s.wCount
    ∧ ((GetFeatureReport cfg drv reportID s).wCount = 0 ↔ s.wCount = 0) := by
  have e : GetFeatureReport cfg drv reportID s = s := by simp [GetFeatureReport, h]
  exact ⟨e, by rw [e], by rw [e]⟩

/-- Report identity 1, evaluated on `sampleState`, where an earlier transfer left
`wCount` at 8: the length is still 8 after the call. -/
theorem GetFeatureReport_unknown_keeps_wCount_witness :
    (1 : byte) ≠ 0
    ∧ (GetFeatureReport sampleConfig (specDrivers 220) 1 sampleState).wCount = 8 := by
  refine ⟨by decide, ?_⟩
  rw [(GetFeatureReport_unknown_keeps_wCount sampleConfig (specDrivers 220) 1 sampleState
    (by decide)).2.1]
  rfl

/-- C2, as stated, fails: with report identity 1 and a prior `wCount` of 8, the length
after `GetFeatureReport` is 8, not 0. -/
theorem GetFeatureReport_unknown_wCount_not_zero :
    (1 : byte) ≠ 0
    ∧ sampleState.wCount = 8
    ∧ (GetFeatureReport sampleConfig (specDrivers 220) 1 sampleState).wCount = 8
    ∧ ¬ (GetFeatureReport sampleConfig (specDrivers 220) 1 sampleState).wCount = 0 := by
  refine ⟨by decide, rfl, rfl, ?_⟩
  show ¬ (8 : Nat) = 0
  decide

/-- The bytes `GetFeatureReport(0)` leaves in the feature buffer, index by index. -/
theorem GetFeatureReport_zero_buffer (cfg : Config) (drv : Drivers D) (s : State D) (i : Nat) :
    (GetFeatureReport cfg drv 0 s).HIDFeatureBuffer i =
      if i = 6 then
        (if s.remoteWakeup ≠ 0 then byteOr (if s.selfPowered ≠ 0 then byteOr 0 0x01 else 0) 0x02
         else (if s.selfPowered ≠ 0 then byteOr 0 0x01 else 0))
      else if i = 5 then
        (drv.getServo1 (drv.motorGetSpeed (drv.getSolenoidVoltage s.drivers).2).2).1
      else if i = 4 then toByte (drv.motorGetSpeed (drv.getSolenoidVoltage s.drivers).2).1
      else if i = 3 then (drv.getSolenoidVoltage s.drivers).1
      else if i = 2 then s.PORTC
      else if i = 1 then s.PORTB
      else if i = 0 then s.PORTA
      else s.HIDFeatureBuffer i := by
  by_cases hs : s.selfPowered = 0 <;> by_cases hr : s.remoteWakeup = 0 <;>
    simp [GetFeatureReport, storeBuffer, callGetSolenoidVoltage, callMotorGetSpeed,
      callGetServo1, Function.update, hs, hr]

/-- C4: for every value of `selfPowered` and `remoteWakeup` and every prior content of
the buffer, after `GetFeatureReport(0)` byte 6 has bit 0 set iff `selfPowered` is
non-zero, bit 1 set iff `remoteWakeup` is non-zero, and every higher bit clear;
its value is below 4. -/
theorem GetFeatureReport_status_byte (cfg : Config) (drv : Drivers D) (s : State D) :
    (((GetFeatureReport cfg drv 0 s).HIDFeatureBuffer 6).val.testBit 0 = true
        ↔ s.selfPowered ≠ 0)
    ∧ (((GetFeatureReport cfg drv 0 s).HIDFeatureBuffer 6).val.testBit 1 = true
        ↔ s.remoteWakeup ≠ 0)
    ∧ (∀ i : Nat, 2 ≤ i →
        ((GetFeatureReport cfg drv 0 s).HIDFeatureBuffer 6).val.testBit i = false)
    ∧ ((GetFeatureReport cfg drv 0 s).HIDFeatureBuffer 6).val < 4 := by
  rw [GetFeatureReport_zero_buffer]
  have low : ∀ (n i : Nat), n < 4 → 2 ≤ i → n.testBit i = false := by
    intro n i hn hi
    apply Nat.testBit_lt_two_pow
    calc n < 2 ^ 2 := hn
      _ ≤ 2 ^ i := Nat.pow_le_pow_right (by decide) hi
  by_cases hs : s.selfPowered = 0 <;> by_cases hr : s.remoteWakeup = 0 <;>
    simp only [hs, hr, if_true, if_false, ne_eq, not_true_eq_false, not_false_eq_true] <;>
    refine ⟨by decide, by decide, fun i hi => low _ i (by decide) hi, by decide⟩

/-- The status byte, evaluated: with `selfPowered` 0, `remoteWakeup` 1 and 0x5A left in
byte 6 by the host, byte 6 reads back as 2 and its bit 6 is clear. -/
theorem GetFeatureReport_status_byte_witness :
    sampleStateNoise.HIDFeatureBuffer 6 = 0x5A
    ∧ (sampleStateNoise.HIDFeatureBuffer 6).val.testBit 6 = true
    ∧ (GetFeatureReport sampleConfig (specDrivers 220) 0 sampleStateNoise).HIDFeatureBuffer 6 = 2
    ∧ ((GetFeatureReport sampleConfig (specDrivers 220) 0
        sampleStateNoise).HIDFeatureBuffer 6).val.testBit 6 = false :=
  ⟨by decide, by decide, by decide,
    (GetFeatureReport_status_byte sampleConfig (specDrivers 220) sampleStateNoise).2.2.1 6
      (by decide)⟩

/-- C10: for every state, `GetFeatureReport(0)` keeps every buffer byte at index 7 or
above, and keeps the input pointer, `deviceState`, `selfPowered`, `remoteWakeup`
and the port, pin and interrupt-enable registers; what it writes is bytes 0 to 6
of the buffer, `outPtr` and `wCount`. -/
theorem GetFeatureReport_frame (cfg : Config) (drv : Drivers D) (s : State D) :
    (∀ i : Nat, 7 ≤ i → (GetFeatureReport cfg drv 0 s).HIDFeatureBuffer i = s.HIDFeatureBuffer i)
    ∧ (GetFeatureReport cfg drv 0 s).inPtr = s.inPtr
    ∧ (GetFeatureReport cfg drv 0 s).deviceState = s.deviceState
    ∧ (GetFeatureReport cfg drv 0 s).selfPowered = s.selfPowered
    ∧ (GetFeatureReport cfg drv 0 s).remoteWakeup = s.remoteWakeup
    ∧ (GetFeatureReport cfg drv 0 s).PORTA = s.PORTA
    ∧ (GetFeatureReport cfg drv 0 s).PORTB = s.PORTB
    ∧ (GetFeatureReport cfg drv 0 s).PORTC = s.PORTC
    ∧ (GetFeatureReport cfg drv 0 s).RE3 = s.RE3
    ∧ (GetFeatureReport cfg drv 0 s).SUSPND = s.SUSPND
    ∧ (GetFeatureReport cfg drv 0 s).IPEN = s.IPEN
    ∧ (GetFeatureReport cfg drv 0 s).GIEL = s.GIEL
    ∧ (GetFeatureReport cfg drv 0 s).GIEH = s.GIEH := by
  refine ⟨?_, ?_, ?_, ?_, ?_, ?_, ?_, ?_, ?_, ?_, ?_, ?_, ?_⟩
  · intro i hi
    rw [GetFeatureReport_zero_buffer]
    have h6 : i ≠ 6 := by omega
    have h5 : i ≠ 5 := by omega
    have h4 : i ≠ 4 := by omega
    have h3 : i ≠ 3 := by omega
    have h2 : i ≠ 2 := by omega
    have h1 : i ≠ 1 := by omega
    have h0 : i ≠ 0 := by omega
    simp only [h6, h5, h4, h3, h2, h1, h0, if_false]
  all_goals
    simp only [GetFeatureReport, storeBuffer, callGetSolenoidVoltage, callMotorGetSpeed,
      callGetServo1, if_true]
    split_ifs <;> rfl

/-- The frame, evaluated: with `sampleReportNoise` left in the buffer by the host and a
report size of 8, byte 7 of the report sent back is still the inbound 0x5A, while
byte 6 has been rewritten. -/
theorem GetFeatureReport_frame_witness :
    7 < sampleConfig.HID_FEATURE_REPORT_BYTES
    ∧ sampleStateNoise.HIDFeatureBuffer 7 = 0x5A
    ∧ (GetFeatureReport sampleConfig (specDrivers 220) 0 sampleStateNoise).HIDFeatureBuffer 7
        = 0x5A
    ∧ (GetFeatureReport sampleConfig (specDrivers 220) 0 sampleStateNoise).HIDFeatureBuffer 6
        = 2 := by
  refine ⟨by decide, by decide, ?_, by decide⟩
  rw [(GetFeatureReport_frame sampleConfig (specDrivers 220) sampleStateNoise).1 7 (by decide)]
  decide

/-! ## Writing a report and reading it back -/

/-- C8: for every state, one call of `ApplicationTasks` sets `selfPowered` from RE3 (to
1 when the pin is high, to 0 when it is low, whatever it held before) and calls
`checkSolenoidVoltage` exactly once, and makes no other call, whatever
`deviceState` and the suspend flag are; if `deviceState >= CONFIGURED` and the bus
is not suspended it sets IPEN, GIEL and GIEH, and otherwise it leaves the three
bits as they were. -/
theorem ApplicationTasks_effect (cfg : Config) (drv : Drivers D) (s : State D) :
    (ApplicationTasks cfg drv s).selfPowered = (if s.RE3 = true then 1 else 0)
    ∧ (s.RE3 = true → (ApplicationTasks cfg drv s).selfPowered.val = 1)
    ∧ (s.RE3 = false → (ApplicationTasks cfg drv s).selfPowered.val = 0)
    ∧ issued s (ApplicationTasks cfg drv s) = [Call.checkSolenoidVoltage]
    ∧ (ApplicationTasks cfg drv s).drivers = drv.checkSolenoidVoltage s.drivers
    ∧ (cfg.CONFIGURED ≤ s.deviceState.val ∧ s.SUSPND = false →
        (ApplicationTasks cfg drv s).IPEN = true
        ∧ (ApplicationTasks cfg drv s).GIEL = true
        ∧ (ApplicationTasks cfg drv s).GIEH = true)
    ∧ (s.deviceState.val < cfg.CONFIGURED ∨ s.SUSPND = true →
        (ApplicationTasks cfg drv s).IPEN = s.IPEN
        ∧ (ApplicationTasks cfg drv s).GIEL = s.GIEL
        ∧ (ApplicationTasks cfg drv s).GIEH = s.GIEH) := by
  have hsp : (ApplicationTasks cfg drv s).selfPowered = (if s.RE3 = true then 1 else 0) := by
    simp only [ApplicationTasks, callCheckSolenoidVoltage, bitVal]
    split_ifs <;> rfl
  refine ⟨hsp, ?_, ?_, ?_, ?_, ?_, ?_⟩
  · intro hp
    rw [hsp, if_pos hp]
    rfl
  · intro hp
    rw [hsp, if_neg (by rw [hp]; exact Bool.noConfusion)]
    rfl
  · apply issued_append
    simp only [ApplicationTasks, callCheckSolenoidVoltage]
    split_ifs <;> rfl
  · exact ApplicationTasks_drivers cfg drv s
  · rintro ⟨hc, hs⟩
    have hn : ¬ (s.deviceState.val < cfg.CONFIGURED ∨ s.SUSPND = true) := by
      rintro (h | h)
      · omega
      · rw [hs] at h; exact Bool.noConfusion h
    simp only [ApplicationTasks, callCheckSolenoidVoltage, hn, if_false, and_self]
  · intro h
    simp only [ApplicationTasks, callCheckSolenoidVoltage, h, if_true, and_self]

/-- One tick, evaluated on three states.  In `sampleState` RE3 is high and the device
is below CONFIGURED: `selfPowered` goes from 0 to 1, the interrupt-enable bits
stay clear and the voltage check is the only call.  In `sampleStateConfigured`
the bits are set.  In `sampleStateBusPowered` RE3 is low and the bus is
suspended: `selfPowered` goes from 1 to 0 and the bits stay clear. -/
theorem ApplicationTasks_effect_witness :
    (sampleState.deviceState.val < sampleConfig.CONFIGURED ∨ sampleState.SUSPND = true)
    ∧ sampleState.RE3 = true
    ∧ sampleState.selfPowered = 0
    ∧ (ApplicationTasks sampleConfig (specDrivers 220) sampleState).selfPowered = 1
    ∧ (ApplicationTasks sampleConfig (specDrivers 220) sampleState).IPEN = false
    ∧ (ApplicationTasks sampleConfig (specDrivers 220) sampleState).calls =
        [Call.checkSolenoidVoltage]
    ∧ (sampleConfig.CONFIGURED ≤ sampleStateConfigured.deviceState.val
        ∧ sampleStateConfigured.SUSPND = false)
    ∧ (ApplicationTasks sampleConfig (specDrivers 220) sampleStateConfigured).IPEN = true
    ∧ (ApplicationTasks sampleConfig (specDrivers 220) sampleStateConfigured).GIEL = true
    ∧ (ApplicationTasks sampleConfig (specDrivers 220) sampleStateConfigured).GIEH = true
    ∧ sampleStateBusPowered.RE3 = false
    ∧ sampleStateBusPowered.selfPowered = 1
    ∧ (ApplicationTasks sampleConfig (specDrivers 220) sampleStateBusPowered).selfPowered = 0
    ∧ (ApplicationTasks sampleConfig (specDrivers 220) sampleStateBusPowered).selfPowered.val
        = 0
    ∧ (ApplicationTasks sampleConfig (specDrivers 220) sampleStateBusPowered).IPEN = false
    ∧ (ApplicationTasks sampleConfig (specDrivers 220) sampleStateBusPowered).calls =
        [Call.checkSolenoidVoltage] := by
  have a := ApplicationTasks_effect sampleConfig (specDrivers 220) sampleState
  have b := ApplicationTasks_effect sampleConfig (specDrivers 220) sampleStateConfigured
  have c := ApplicationTasks_effect sampleConfig (specDrivers 220) sampleStateBusPowered
  have ha : sampleState.deviceState.val < sampleConfig.CONFIGURED ∨ sampleState.SUSPND = true :=
    Or.inl (by decide)
  have hb : sampleConfig.CONFIGURED ≤ sampleStateConfigured.deviceState.val
      ∧ sampleStateConfigured.SUSPND = false := ⟨by decide, rfl⟩
  have hc : sampleStateBusPowered.deviceState.val < sampleConfig.CONFIGURED
      ∨ sampleStateBusPowered.SUSPND = true := Or.inr rfl
  have hbits := b.2.2.2.2.2.1 hb
  refine ⟨ha, rfl, rfl, ?_, ?_, ?_, hb, hbits.1, hbits.2.1, hbits.2.2, rfl, rfl, ?_,
    c.2.2.1 rfl, ?_, ?_⟩
  · rw [a.1]; rfl
  · rw [(a.2.2.2.2.2.2 ha).1]; rfl
  · have h := a.2.2.2.1
    simpa [issued, sampleState] using h
  · rw [c.1]; rfl
  · rw [(c.2.2.2.2.2.2 hc).1]; rfl
  · have h := c.2.2.2.1
    simpa [issued, sampleStateBusPowered, sampleState] using h

/-- C9: with the drivers as the specification describes them, at every tick at which
the voltage sensor reads above the safety threshold the solenoid is commanded
clear after `ApplicationTasks`, in every device state, and also when the tick
follows a `SetFeatureReport(0)` whatever its solenoid bit was. -/
theorem overvoltage_clears_solenoid (cfg : Config) (threshold : byte) (s : State DriverState)
    (h : threshold < s.drivers.voltage) :
    (ApplicationTasks cfg (specDrivers threshold) s).drivers.solenoid = SolenoidCommand.clear
    ∧ (ApplicationTasks cfg (specDrivers threshold)
        (SetFeatureReport (specDrivers threshold) 0 s)).drivers.solenoid
          = SolenoidCommand.clear := by
  have key : ∀ u : State DriverState, threshold < u.drivers.voltage →
      (ApplicationTasks cfg (specDrivers threshold) u).drivers.solenoid
        = SolenoidCommand.clear := by
    intro u hu
    rw [ApplicationTasks_drivers cfg (specDrivers threshold) u]
    simp [specDrivers, hu]
  refine ⟨key s h, key _ ?_⟩
  rw [SetFeatureReport_zero_drivers]
  split_ifs <;> exact h

/-- The safety check, evaluated: the sensor reads 200 and the threshold is 180; after the
host's fire command the solenoid is commanded fire, and after the next tick it is
commanded clear. -/
theorem overvoltage_clears_solenoid_witness :
    (180 : byte) < sampleState.drivers.voltage
    ∧ (sampleState.HIDFeatureBuffer 3).val % 2 = 1
    ∧ (SetFeatureReport (specDrivers 180) 0 sampleState).drivers.solenoid
        = SolenoidCommand.fire
    ∧ (ApplicationTasks sampleConfig (specDrivers 180)
        (SetFeatureReport (specDrivers 180) 0 sampleState)).drivers.solenoid
          = SolenoidCommand.clear :=
  ⟨by decide, by decide, by decide,
    (overvoltage_clears_solenoid sampleConfig 180 sampleState (by decide)).2⟩

end Pichid
